import Mathlib

/-!
Shallow embedding of the accident-detection core of the
`vehicle-accident-detector` repository (`src/detector/pipeline.py`).

Numbers that are Python floats in the source are modelled as rationals
(`ℚ`); the float literal `1e-6` becomes the rational `1 / 1000000`.
The object detector is an external, opaque capability: a frame is
therefore represented by the list of detections the detector returns
for it.  File-system side effects (the CSV log, snapshot images) are
modelled by returning the path and the rendered content.
-/

namespace AccidentDetector

/-- An axis-aligned bounding box `[x1, y1, x2, y2]` in pixel space
(`box.xyxy[0].tolist()` in the source). -/
structure Box where
  x1 : ℚ
  y1 : ℚ
  x2 : ℚ
  y2 : ℚ
deriving DecidableEq

/-- The `1e-6` constant used in `compute_iou` (line 38) and in the
growth-ratio denominator (line 115). -/
def eps : ℚ := 1 / 1000000

/-- Clamped box area `max(0, x2 - x1) * max(0, y2 - y1)`
(pipeline.py lines 35-36 and line 106). -/
def boxArea (b : Box) : ℚ :=
  max 0 (b.x2 - b.x1) * max 0 (b.y2 - b.y1)

/-- `compute_iou(box1, box2)` from pipeline.py lines 22-39. -/
def compute_iou (box1 box2 : Box) : ℚ :=
  let x1 := max box1.x1 box2.x1
  let y1 := max box1.y1 box2.y1
  let x2 := min box1.x2 box2.x2
  let y2 := min box1.y2 box2.y2
  let inter_w := max 0 (x2 - x1)
  let inter_h := max 0 (y2 - y1)
  let inter_area := inter_w * inter_h
  let area1 := max 0 (box1.x2 - box1.x1) * max 0 (box1.y2 - box1.y1)
  let area2 := max 0 (box2.x2 - box2.x1) * max 0 (box2.y2 - box2.y1)
  let union_area := area1 + area2 - inter_area + eps
  inter_area / union_area

/-- Flat form of `compute_iou`, for rewriting. -/
theorem compute_iou_def (box1 box2 : Box) :
    compute_iou box1 box2 =
      max 0 (min box1.x2 box2.x2 - max box1.x1 box2.x1) *
        max 0 (min box1.y2 box2.y2 - max box1.y1 box2.y1) /
      (max 0 (box1.x2 - box1.x1) * max 0 (box1.y2 - box1.y1) +
        max 0 (box2.x2 - box2.x1) * max 0 (box2.y2 - box2.y1) -
        max 0 (min box1.x2 box2.x2 - max box1.x1 box2.x1) *
          max 0 (min box1.y2 box2.y2 - max box1.y1 box2.y1) + eps) := rfl

/-- One raw detection returned by the (external, opaque) detector for a
frame: a class label and a box.  The confidence threshold is applied
inside the detector itself, as in `model(frame, conf=conf_thres, ...)`. -/
structure Detection where
  label : String
  box : Box
deriving DecidableEq

/-- A frame, as seen by the core logic: the detector's output on it. -/
abbrev Frame := List Detection

/-- `VEHICLE_CLASSES = {"car", "motorbike", "bus", "truck"}` (line 17). -/
def VEHICLE_CLASSES : List String := ["car", "motorbike", "bus", "truck"]

/-- A filtered vehicle record `{"coords": ..., "area": ..., "label": ...}`
(line 107). -/
structure VehicleBox where
  coords : Box
  area : ℚ
  label : String
deriving DecidableEq

/-- The `curr_boxes` construction of pipeline.py lines 98-107: keep
detections whose label is a vehicle class, in input order, and attach
the clamped area. -/
def filterVehicles (dets : List Detection) : List VehicleBox :=
  (dets.filter (fun d => VEHICLE_CLASSES.contains d.label)).map
    (fun d => { coords := d.box, area := boxArea d.box, label := d.label })

/-- The trigger-pair test of pipeline.py lines 113-116: IoU at least the
threshold, previous area positive, and growth ratio at least the factor. -/
def triggerPair (iouThres growthFactor : ℚ) (cb pb : VehicleBox) : Bool :=
  if compute_iou cb.coords pb.coords ≥ iouThres ∧ pb.area > 0 then
    decide (cb.area / (pb.area + eps) ≥ growthFactor)
  else
    false

/-- `accident_in_this_frame` of pipeline.py lines 110-120: the doubly
nested loop with early `break` is a short-circuiting double `any`. -/
def accidentInFrame (iouThres growthFactor : ℚ)
    (curr prev : List VehicleBox) : Bool :=
  curr.any (fun cb => prev.any (fun pb => triggerPair iouThres growthFactor cb pb))

/-- Python `int()` truncation toward zero on a rational. -/
def ratTrunc (q : ℚ) : ℤ :=
  if 0 ≤ q then ⌊q⌋ else ⌈q⌉

/-- Python3 `round` ties-to-even on an exact rational value. -/
def roundHalfEven (q : ℚ) : ℤ :=
  if q - ⌊q⌋ < 1 / 2 then ⌊q⌋
  else if q - ⌊q⌋ > 1 / 2 then ⌊q⌋ + 1
  else if ⌊q⌋ % 2 = 0 then ⌊q⌋ else ⌊q⌋ + 1

/-- `round(ts, 2)` (line 156). -/
def round2 (q : ℚ) : ℚ :=
  (roundHalfEven (q * 100) : ℚ) / 100

/-- Two-digit zero padding used by `str(timedelta(...))`. -/
def pad2 (n : ℕ) : String :=
  if n < 10 then "0" ++ toString n else toString n

/-- `str(timedelta(seconds=s))` for a non-negative whole number of
seconds (line 132): `H:MM:SS`, preceded by a day count when `s ≥ 86400`. -/
def timedeltaStr (s : ℕ) : String :=
  let d := s / 86400
  let hms := toString ((s % 86400) / 3600) ++ ":" ++ pad2 ((s % 3600) / 60) ++
    ":" ++ pad2 (s % 60)
  if d = 0 then hms
  else if d = 1 then "1 day, " ++ hms
  else toString d ++ " days, " ++ hms

/-- Snapshot file path (lines 145-148):
`outputs/frames/{base}_accident_{counter}_frame_{frame_idx}.jpg`. -/
def snapshotPath (base : String) (counter frameIdx : ℕ) : String :=
  "outputs/frames/" ++ base ++ "_accident_" ++ toString counter ++
    "_frame_" ++ toString frameIdx ++ ".jpg"

/-- CSV log path (line 75): `outputs/{base}_accident_log.csv`. -/
def logCsvPath (base : String) : String :=
  "outputs/" ++ (base ++ "_accident_log.csv")

/-- One accident event record (lines 152-160). -/
structure Event where
  event_id : ℕ
  frame : ℕ
  time_seconds : ℚ
  time_hhmmss : String
  snapshot_path : String
deriving DecidableEq

/-- The mutable run state of `analyze_frames` (lines 77-81). -/
structure RunState where
  prev_boxes : List VehicleBox
  accident_events : List Event
  snapshot_paths : List String
  accident_counter : ℕ
  frame_idx : ℕ
deriving DecidableEq

/-- Initial state of lines 77-81. -/
def initState : RunState :=
  { prev_boxes := []
    accident_events := []
    snapshot_paths := []
    accident_counter := 0
    frame_idx := 0 }

/-- The parameters of `analyze_frames` (lines 57-64).  `conf_thres` is
forwarded to the opaque detector and plays no further role here;
`max_frames` is the optional Python int cap. -/
structure Config where
  base_name : String
  fps : ℚ
  conf_thres : ℚ
  accident_iou_thres : ℚ
  area_growth_factor : ℚ
  max_frames : Option ℤ
deriving DecidableEq

/-- The body of the `for frame in frame_generator` loop for one frame
that passed the `None` and `max_frames` checks (lines 96-162), with the
frame index already incremented.  On an event frame the counter is
incremented, a snapshot path recorded and an event appended; in every
case `prev_boxes` is replaced by `curr_boxes`. -/
def processFrame (cfg : Config) (s : RunState) (fr : Frame) : RunState :=
  let curr := filterVehicles fr
  if accidentInFrame cfg.accident_iou_thres cfg.area_growth_factor curr s.prev_boxes then
    let counter := s.accident_counter + 1
    let ts : ℚ := if cfg.fps > 0 then (s.frame_idx : ℚ) / cfg.fps else (s.frame_idx : ℚ)
    let path := snapshotPath cfg.base_name counter s.frame_idx
    { prev_boxes := curr
      accident_events := s.accident_events ++
        [{ event_id := counter
           frame := s.frame_idx
           time_seconds := round2 ts
           time_hhmmss := timedeltaStr (ratTrunc ts).toNat
           snapshot_path := path }]
      snapshot_paths := s.snapshot_paths ++ [path]
      accident_counter := counter
      frame_idx := s.frame_idx }
  else
    { s with prev_boxes := curr }

/-- The frame loop of lines 83-162.  The frame source is a list of
yielded values (`none` models a yielded Python `None`); the result is
the final state together with two observation counters: the number of
frames pulled from the generator and the number of frames that reached
processing.  A pulled `None` or `max_frames`-cut frame is counted as
pulled but not processed, exactly as in the source, where the `None`
check precedes the index increment and the `max_frames` check follows it. -/
def processLoop (cfg : Config) (s : RunState) :
    List (Option Frame) → RunState × ℕ × ℕ
  | [] => (s, 0, 0)
  | none :: _ => (s, 1, 0)
  | some fr :: rest =>
    let idx := s.frame_idx + 1
    let halt : Bool :=
      match cfg.max_frames with
      | some n => decide ((idx : ℤ) > n)
      | none => false
    if halt then ({ s with frame_idx := idx }, 1, 0)
    else
      let r := processLoop cfg (processFrame cfg { s with frame_idx := idx } fr) rest
      (r.1, r.2.1 + 1, r.2.2 + 1)

/-- A cell of the rendered CSV log. -/
inductive CsvCell where
  | nat : ℕ → CsvCell
  | rat : ℚ → CsvCell
  | str : String → CsvCell
deriving DecidableEq

/-- The fixed `fieldnames` of the CSV writer (lines 169-175, 183-185). -/
def fieldnames : List String :=
  ["event_id", "frame", "time_seconds", "time_hhmmss", "snapshot_path"]

/-- `csv.DictWriter` field lookup for one event row. -/
def eventCell (e : Event) : String → CsvCell
  | "event_id" => .nat e.event_id
  | "frame" => .nat e.frame
  | "time_seconds" => .rat e.time_seconds
  | "time_hhmmss" => .str e.time_hhmmss
  | "snapshot_path" => .str e.snapshot_path
  | _ => .str ""

/-- The CSV content written at lines 164-185: header row plus one row
per event when events exist, otherwise the bare header row. -/
def renderCsv (events : List Event) : List (List CsvCell) :=
  if events ≠ [] then
    fieldnames.map CsvCell.str :: events.map (fun e => fieldnames.map (eventCell e))
  else
    [fieldnames.map CsvCell.str]

/-- `analyze_frames` (lines 57-189): run the loop from the empty state,
then return the Python return value `(snapshot_paths, log_csv_path)`
together with the CSV content written to that path. -/
def analyze_frames (cfg : Config) (frames : List (Option Frame)) :
    (List String × String) × List (List CsvCell) :=
  let s := (processLoop cfg initState frames).1
  ((s.snapshot_paths, logCsvPath cfg.base_name), renderCsv s.accident_events)

/-- Number of frames `analyze_frames` pulls from the generator. -/
def framesPulled (cfg : Config) (frames : List (Option Frame)) : ℕ :=
  (processLoop cfg initState frames).2.1

/-- Number of frames `analyze_frames` actually processes. -/
def framesProcessed (cfg : Config) (frames : List (Option Frame)) : ℕ :=
  (processLoop cfg initState frames).2.2

/-- An opened `cv2.VideoCapture`: its reported FPS and the frames it
will successfully `read()` before `ret` turns false. -/
structure Capture where
  fps : ℚ
  frames : List Frame
deriving DecidableEq

/-- Observable outcome of a UI entry point: a silent `return [], None`,
a raised `RuntimeError` with its message, or a completed
`analyze_frames` run (the only outcome that writes a log file). -/
inductive EntryResult where
  | emptyReturn : EntryResult
  | err : String → EntryResult
  | ran : (List String × String) × List (List CsvCell) → EntryResult
deriving DecidableEq

/-- Whether an entry outcome raised an error. -/
def EntryResult.isErr : EntryResult → Bool
  | .err _ => true
  | _ => false

/-- Whether an entry outcome ran `analyze_frames` and hence wrote a
CSV log file. -/
def EntryResult.wroteLog : EntryResult → Bool
  | .ran _ => true
  | _ => false

/-- `os.path.basename`: the part after the last slash. -/
def pathBasename (p : String) : String :=
  match (p.splitOn "/").reverse with
  | [] => ""
  | b :: _ => b

/-- The root part of `os.path.splitext` on a basename: strip the last
dot-extension unless every character before the last dot is a dot. -/
def splitextRoot (b : String) : String :=
  match (b.splitOn ".").reverse with
  | [] => b
  | [_] => b
  | _ :: front =>
    let root := String.intercalate "." front.reverse
    if root = "" ∨ root.all (fun c => c = '.') then b else root

/-- `process_uploaded_video` (pipeline.py lines 194-229).  The file
system and `cv2` are capabilities: `fileExists` models
`os.path.exists`, `openCap` models `cv2.VideoCapture` on a path
(`none` when `cap.isOpened()` is false).  A missing file-or-capture
yields the silent `return [], None`; otherwise
`fps = cap.get(CAP_PROP_FPS) or 25.0` (Python truthiness: only an
exact 0 falls back) and `analyze_frames` runs with no frame cap. -/
def process_uploaded_video (video_file : Option String)
    (fileExists : String → Bool) (openCap : String → Option Capture)
    (conf_thres accident_iou area_growth : ℚ) : EntryResult :=
  match video_file with
  | none => .emptyReturn
  | some video_path =>
    if fileExists video_path then
      match openCap video_path with
      | none => .emptyReturn
      | some cap =>
        let fps := if cap.fps = 0 then 25 else cap.fps
        let base_name := splitextRoot (pathBasename video_path)
        .ran (analyze_frames
          { base_name := base_name
            fps := fps
            conf_thres := conf_thres
            accident_iou_thres := accident_iou
            area_growth_factor := area_growth
            max_frames := none }
          (cap.frames.map some))
    else .emptyReturn

/-- `process_webcam` (pipeline.py lines 234-268): `cam` models
`cv2.VideoCapture(0)` (`none` when the device cannot be opened, which
raises a `RuntimeError`).  FPS outside `(0, 120]` falls back to 15;
`max_frames = int(fps * duration_sec)` caps both the generator and the
loop. -/
def process_webcam (cam : Option Capture)
    (duration_sec conf_thres accident_iou area_growth : ℚ) : EntryResult :=
  match cam with
  | none => .err "Could not open laptop webcam (index 0)."
  | some cap =>
    let fps := if cap.fps ≤ 0 ∨ cap.fps > 120 then 15 else cap.fps
    let max_frames : ℤ := ratTrunc (fps * duration_sec)
    .ran (analyze_frames
      { base_name := "laptop_webcam"
        fps := fps
        conf_thres := conf_thres
        accident_iou_thres := accident_iou
        area_growth_factor := area_growth
        max_frames := some max_frames }
      ((cap.frames.take max_frames.toNat).map some))

/-- The `RuntimeError` message of `process_phone_ip_cam` (lines 286-292). -/
def phoneErrMsg (ip_url : String) : String :=
  "Could not open IP camera stream: " ++ ip_url ++ "\n" ++
    "Check that:\n" ++
    "  - Phone and laptop are on the same Wi-Fi\n" ++
    "  - You can open this URL in your browser\n" ++
    "  - IP Webcam (or similar app) is running."

/-- `process_phone_ip_cam` (pipeline.py lines 273-323): an empty URL is
falsy and yields the silent `return [], None`; an unopenable stream
raises a descriptive `RuntimeError`; otherwise the run mirrors the
webcam path with base name `phone_ip_cam`. -/
def process_phone_ip_cam (ip_url : String)
    (openStream : String → Option Capture)
    (duration_sec conf_thres accident_iou area_growth : ℚ) : EntryResult :=
  if ip_url = "" then .emptyReturn
  else
    match openStream ip_url with
    | none => .err (phoneErrMsg ip_url)
    | some cap =>
      let fps := if cap.fps ≤ 0 ∨ cap.fps > 120 then 15 else cap.fps
      let max_frames : ℤ := ratTrunc (fps * duration_sec)
      .ran (analyze_frames
        { base_name := "phone_ip_cam"
          fps := fps
          conf_thres := conf_thres
          accident_iou_thres := accident_iou
          area_growth_factor := area_growth
          max_frames := some max_frames }
        ((cap.frames.take max_frames.toNat).map some))

/-- The event-log invariant of the spec: as many collected events as the
counter says, with ids exactly `1..k` in order. -/
def eventsInv (s : RunState) : Prop :=
  s.accident_events.length = s.accident_counter ∧
  s.accident_events.map Event.event_id = List.range' 1 s.accident_counter

/-- A sample configuration with no frame cap. -/
def cfg0 : Config :=
  { base_name := "demo"
    fps := 25
    conf_thres := 1 / 4
    accident_iou_thres := 1 / 2
    area_growth_factor := 3 / 2
    max_frames := none }

/-- A sample configuration with `max_frames = 1`. -/
def cfg1 : Config :=
  { cfg0 with max_frames := some 1 }

/-- A sample configuration with `max_frames = 2`. -/
def cfg2 : Config :=
  { cfg0 with max_frames := some 2 }

/-- A sample frame holding one detected car. -/
def fr0 : Frame :=
  [{ label := "car", box := { x1 := 0, y1 := 0, x2 := 10, y2 := 10 } }]

/-- A 10-by-10 box. -/
def bigBox : Box := { x1 := 0, y1 := 0, x2 := 10, y2 := 10 }

/-- A box of side `1/1000`, hence of clamped area `1e-6`. -/
def tinyBox : Box := { x1 := 0, y1 := 0, x2 := 1 / 1000, y2 := 1 / 1000 }

theorem triggerPair_eq_true (t g : ℚ) (cb pb : VehicleBox) :
    triggerPair t g cb pb = true ↔
      compute_iou cb.coords pb.coords ≥ t ∧ pb.area > 0 ∧
        cb.area / (pb.area + eps) ≥ g := by
  unfold triggerPair
  split_ifs with h
  · simp only [decide_eq_true_eq]
    exact ⟨fun hg => ⟨h.1, h.2, hg⟩, fun hc => hc.2.2⟩
  · simp only [Bool.false_eq_true, false_iff]
    intro hc
    exact h ⟨hc.1, hc.2.1⟩

/-- Claim C1: a frame is flagged as an event frame if and only if some
current box `c` and previous box `p` satisfy
`compute_iou(c.coords, p.coords) >= accident_iou_thres`, `p.area > 0`
and `c.area / (p.area + 1e-6) >= area_growth_factor`; the double `any`
short-circuits at the first such pair, and any single pair suffices. -/
theorem accidentInFrame_iff_trigger (t g : ℚ) (curr prev : List VehicleBox) :
    accidentInFrame t g curr prev = true ↔
      ∃ cb ∈ curr, ∃ pb ∈ prev,
        compute_iou cb.coords pb.coords ≥ t ∧ pb.area > 0 ∧
          cb.area / (pb.area + eps) ≥ g := by
  simp only [accidentInFrame, List.any_eq_true, triggerPair_eq_true]

/-- Claim C7: `compute_iou` is symmetric in its two box arguments. -/
theorem compute_iou_symm (A B : Box) : compute_iou A B = compute_iou B A := by
  rw [compute_iou_def, compute_iou_def, max_comm A.x1 B.x1, max_comm A.y1 B.y1,
    min_comm A.x2 B.x2, min_comm A.y2 B.y2]
  ring

/-- Claim C8: the clamped box area `max(0, x2-x1) * max(0, y2-y1)` is
never negative, including when `x2 < x1` or `y2 < y1`. -/
theorem boxArea_nonneg (b : Box) : 0 ≤ boxArea b :=
  mul_nonneg (le_max_left 0 _) (le_max_left 0 _)

/-- Claim C9 counterexample: `tinyBox` has positive width and height,
yet `compute_iou tinyBox tinyBox = 1/2`, which is further than `1/1000`
from 1 — nowhere near the claimed `1e-6`-order tolerance. -/
theorem compute_iou_self_tiny_cex :
    0 < tinyBox.x2 - tinyBox.x1 ∧ 0 < tinyBox.y2 - tinyBox.y1 ∧
    compute_iou tinyBox tinyBox = 1 / 2 ∧
    1 - compute_iou tinyBox tinyBox > 1 / 1000 := by
  refine ⟨by norm_num [tinyBox], by norm_num [tinyBox], ?_, ?_⟩ <;>
    norm_num [compute_iou_def, tinyBox, eps]

/-- Claim C9 (amended): for every box,
`compute_iou A A = area / (area + 1e-6) < 1`; and for boxes of clamped
area at least 1 (any box at least one pixel on a side) the distance to
1 is below `1e-6`. -/
theorem compute_iou_self_near_one (A : Box) :
    compute_iou A A = boxArea A / (boxArea A + eps) ∧
    compute_iou A A < 1 ∧
    (1 ≤ boxArea A → 1 - compute_iou A A < eps) := by
  have heps : (0 : ℚ) < eps := by norm_num [eps]
  have hA : (0 : ℚ) ≤ boxArea A := boxArea_nonneg A
  have hden : (0 : ℚ) < boxArea A + eps := by linarith
  have hAA : compute_iou A A = boxArea A / (boxArea A + eps) := by
    rw [compute_iou_def, max_self, max_self, min_self, min_self]
    unfold boxArea
    ring_nf
  have hlt : compute_iou A A < 1 := by
    rw [hAA, div_lt_one hden]
    linarith
  have hsub : 1 - boxArea A / (boxArea A + eps) = eps / (boxArea A + eps) := by
    field_simp
  refine ⟨hAA, hlt, ?_⟩
  intro h
  rw [hAA, hsub, div_lt_iff₀ hden]
  nlinarith

/-- Claim C9 witness: `bigBox` has area 100, and the amended bound
applies to it. -/
theorem compute_iou_self_near_one_witness :
    1 ≤ boxArea bigBox ∧ 1 - compute_iou bigBox bigBox < eps :=
  ⟨by norm_num [boxArea, bigBox],
   (compute_iou_self_near_one bigBox).2.2 (by norm_num [boxArea, bigBox])⟩

/-- Claim C4: after each processed frame the previous-frame memory is
the frame's filtered vehicle boxes, regardless of the flag; the memory
starts empty; an empty current or previous box set yields no trigger
pair; and a frame seen with empty previous memory (in particular the
first processed frame) adds no event and leaves the counter untouched
while the memory still updates. -/
theorem processFrame_memory (cfg : Config) (s : RunState) (fr : Frame) :
    (processFrame cfg s fr).prev_boxes = filterVehicles fr ∧
    initState.prev_boxes = [] ∧
    accidentInFrame cfg.accident_iou_thres cfg.area_growth_factor
      (filterVehicles fr) [] = false ∧
    accidentInFrame cfg.accident_iou_thres cfg.area_growth_factor
      [] s.prev_boxes = false ∧
    (s.prev_boxes = [] →
      (processFrame cfg s fr).accident_events = s.accident_events ∧
      (processFrame cfg s fr).accident_counter = s.accident_counter) := by
  refine ⟨?_, rfl, ?_, ?_, ?_⟩
  · simp only [processFrame]
    split <;> rfl
  · simp [accidentInFrame]
  · simp [accidentInFrame]
  · intro h
    have hflag : accidentInFrame cfg.accident_iou_thres cfg.area_growth_factor
        (filterVehicles fr) s.prev_boxes = false := by
      rw [h]; simp [accidentInFrame]
    constructor <;> simp [processFrame, hflag]

/-- Claim C4 witness: processing one frame from the initial (empty)
memory flags nothing and records no event. -/
theorem processFrame_memory_witness :
    (processFrame cfg0 initState fr0).accident_events = [] ∧
    (processFrame cfg0 initState fr0).accident_counter = 0 :=
  (processFrame_memory cfg0 initState fr0).2.2.2.2 rfl

theorem processFrame_eventsInv (cfg : Config) (s : RunState) (fr : Frame)
    (h : eventsInv s) : eventsInv (processFrame cfg s fr) := by
  obtain ⟨h1, h2⟩ := h
  have hconc : List.range' 1 (s.accident_counter + 1) =
      List.range' 1 s.accident_counter ++ [s.accident_counter + 1] := by
    rw [List.range'_concat]
    simp [Nat.add_comm]
  by_cases hf : accidentInFrame cfg.accident_iou_thres cfg.area_growth_factor
      (filterVehicles fr) s.prev_boxes = true
  · exact ⟨by simp [processFrame, hf, h1],
      by simp [processFrame, hf, h2, hconc]⟩
  · exact ⟨by simp [processFrame, hf, h1],
      by simp [processFrame, hf, h2]⟩

theorem processLoop_eventsInv (cfg : Config) (frames : List (Option Frame)) :
    ∀ s : RunState, eventsInv s → eventsInv (processLoop cfg s frames).1 := by
  induction frames with
  | nil => intro s h; exact h
  | cons o rest ih =>
    intro s h
    cases o with
    | none => exact h
    | some fr =>
      simp only [processLoop]
      split
      · exact h
      · exact ih _ (processFrame_eventsInv _ _ _ h)

/-- Claim C3: for every frame sequence (hence after any processed
prefix), the number of collected events equals the event counter, and
the collected `event_id`s are exactly `1..k` in strictly increasing
order for `k` total events. -/
theorem analyze_frames_event_ids (cfg : Config) (frames : List (Option Frame)) :
    (processLoop cfg initState frames).1.accident_events.length =
      (processLoop cfg initState frames).1.accident_counter ∧
    (processLoop cfg initState frames).1.accident_events.map Event.event_id =
      List.range' 1 (processLoop cfg initState frames).1.accident_counter :=
  processLoop_eventsInv cfg frames initState ⟨rfl, rfl⟩

/-- Claim C5: each run produces exactly one CSV log, at path
`outputs/{base_name}_accident_log.csv`, whose first row is the header
`event_id, frame, time_seconds, time_hhmmss, snapshot_path`, with one
data row per collected event — in particular just the header when no
event was collected. -/
theorem analyze_frames_csv (cfg : Config) (frames : List (Option Frame)) :
    (analyze_frames cfg frames).1.2 = logCsvPath cfg.base_name ∧
    logCsvPath cfg.base_name = "outputs/" ++ (cfg.base_name ++ "_accident_log.csv") ∧
    (analyze_frames cfg frames).2.head? = some (fieldnames.map CsvCell.str) ∧
    (analyze_frames cfg frames).2.length =
      (processLoop cfg initState frames).1.accident_events.length + 1 ∧
    ((processLoop cfg initState frames).1.accident_events = [] →
      (analyze_frames cfg frames).2 = [fieldnames.map CsvCell.str]) := by
  refine ⟨rfl, rfl, ?_, ?_, ?_⟩
  · by_cases h : (processLoop cfg initState frames).1.accident_events = [] <;>
      simp [analyze_frames, renderCsv, h]
  · by_cases h : (processLoop cfg initState frames).1.accident_events = [] <;>
      simp [analyze_frames, renderCsv, h]
  · intro h
    simp [analyze_frames, renderCsv, h]

/-- Claim C5 witness: an empty run still renders the bare header row. -/
theorem analyze_frames_csv_witness :
    (analyze_frames cfg0 []).2 = [fieldnames.map CsvCell.str] :=
  (analyze_frames_csv cfg0 []).2.2.2.2 rfl

/-- Claim C10: a `None` yielded by the generator ends the loop at once —
state (including the frame index) unchanged, nothing processed, exactly
as if the source were exhausted — while the CSV log is still rendered
and the snapshot paths and log path are still returned. -/
theorem none_frame_stops (cfg : Config) (s : RunState) (rest : List (Option Frame)) :
    (processLoop cfg s (none :: rest)).1 = s ∧
    (processLoop cfg s (none :: rest)).2.2 = 0 ∧
    analyze_frames cfg (none :: rest) = analyze_frames cfg [] ∧
    analyze_frames cfg (none :: rest) =
      (((processLoop cfg initState (none :: rest)).1.snapshot_paths,
          logCsvPath cfg.base_name),
        renderCsv (processLoop cfg initState (none :: rest)).1.accident_events) :=
  ⟨rfl, rfl, rfl, rfl⟩

/-- Claim C6 counterexample: on a missing file path,
`process_uploaded_video` does not raise any error — it silently returns
`([], None)`. -/
theorem uploaded_missing_no_error :
    (process_uploaded_video (some "missing.mp4") (fun _ => false) (fun _ => none)
        (1 / 4) (1 / 2) (3 / 2)).isErr = false := rfl

/-- Claim C6 (amended): every unopenable source makes its entry point
fail fast before any processing, and no log is written; but only
`process_webcam` and `process_phone_ip_cam` raise a descriptive
`RuntimeError` — `process_uploaded_video` (missing `video_file`, bad
path, or unopenable capture) and `process_phone_ip_cam` on an empty URL
return `([], None)` silently instead. -/
theorem entry_points_fail_fast (fe : String → Bool) (oc : String → Option Capture)
    (p url : String) (d c i g : ℚ) :
    process_uploaded_video none fe oc c i g = .emptyReturn ∧
    (fe p = false → process_uploaded_video (some p) fe oc c i g = .emptyReturn) ∧
    (fe p = true → oc p = none →
      process_uploaded_video (some p) fe oc c i g = .emptyReturn) ∧
    process_webcam none d c i g = .err "Could not open laptop webcam (index 0)." ∧
    (url ≠ "" → oc url = none →
      process_phone_ip_cam url oc d c i g = .err (phoneErrMsg url)) ∧
    process_phone_ip_cam "" oc d c i g = .emptyReturn ∧
    EntryResult.emptyReturn.wroteLog = false ∧
    (EntryResult.err (phoneErrMsg url)).wroteLog = false ∧
    EntryResult.emptyReturn.isErr = false := by
  refine ⟨rfl, ?_, ?_, rfl, ?_, ?_, rfl, rfl, rfl⟩
  · intro h; simp [process_uploaded_video, h]
  · intro h1 h2; simp [process_uploaded_video, h1, h2]
  · intro h1 h2; simp [process_phone_ip_cam, h1, h2]
  · simp [process_phone_ip_cam]

/-- Claim C6 witness: an existing but unopenable upload returns the
silent empty result, and an unreachable phone stream raises the
descriptive error. -/
theorem entry_points_fail_fast_witness :
    process_uploaded_video (some "clip.mp4") (fun _ => true) (fun _ => none)
        (1 / 4) (1 / 2) (3 / 2) = .emptyReturn ∧
    process_phone_ip_cam "http://192.168.1.5:8080/video" (fun _ => none)
        10 (1 / 4) (1 / 2) (3 / 2) =
      .err (phoneErrMsg "http://192.168.1.5:8080/video") := by
  constructor
  · exact (entry_points_fail_fast (fun _ => true) (fun _ => none) "clip.mp4" "u"
      10 (1 / 4) (1 / 2) (3 / 2)).2.2.1 rfl rfl
  · exact (entry_points_fail_fast (fun _ => true) (fun _ => none) "p"
      "http://192.168.1.5:8080/video" 10 (1 / 4) (1 / 2) (3 / 2)).2.2.2.2.1
      (by simp) rfl

theorem processFrame_frame_idx (cfg : Config) (s : RunState) (fr : Frame) :
    (processFrame cfg s fr).frame_idx = s.frame_idx := by
  by_cases hf : accidentInFrame cfg.accident_iou_thres cfg.area_growth_factor
      (filterVehicles fr) s.prev_boxes = true <;> simp [processFrame, hf]

theorem processLoop_counts_le (cfg : Config) (N : ℤ) (hmax : cfg.max_frames = some N)
    (frames : List (Option Frame)) :
    ∀ s : RunState, (s.frame_idx : ℤ) ≤ N →
      ((processLoop cfg s frames).2.2 : ℤ) ≤ N - s.frame_idx ∧
      ((processLoop cfg s frames).2.1 : ℤ) ≤ N - s.frame_idx + 1 := by
  induction frames with
  | nil =>
    intro s hs
    simp only [processLoop]
    constructor <;> simp <;> omega
  | cons o rest ih =>
    intro s hs
    cases o with
    | none =>
      simp only [processLoop]
      constructor <;> simp <;> omega
    | some fr =>
      simp only [processLoop, hmax]
      split
      · constructor <;> simp <;> omega
      · rename_i hh
        simp only [decide_eq_true_eq, not_lt] at hh
        have hle : (((processFrame cfg { s with frame_idx := s.frame_idx + 1 } fr).frame_idx : ℕ) : ℤ) ≤ N := by
          rw [processFrame_frame_idx]
          simpa using hh
        have hrec := ih (processFrame cfg { s with frame_idx := s.frame_idx + 1 } fr) hle
        rw [processFrame_frame_idx] at hrec
        simp only [RunState.frame_idx] at hrec
        constructor <;> simp only [] <;> push_cast at hrec ⊢ <;> omega

theorem processLoop_counts_eq (cfg : Config) (N : ℤ) (hmax : cfg.max_frames = some N)
    (frames : List (Option Frame)) :
    ∀ s : RunState, (s.frame_idx : ℤ) ≤ N →
      (∀ o ∈ frames, o ≠ none) → (frames.length : ℤ) ≥ N - s.frame_idx + 1 →
      ((processLoop cfg s frames).2.2 : ℤ) = N - s.frame_idx ∧
      ((processLoop cfg s frames).2.1 : ℤ) = N - s.frame_idx + 1 := by
  induction frames with
  | nil =>
    intro s hs _ hlen
    simp only [List.length_nil] at hlen
    omega
  | cons o rest ih =>
    intro s hs hnone hlen
    cases o with
    | none => exact absurd rfl (hnone none (List.mem_cons_self _ _))
    | some fr =>
      simp only [processLoop, hmax]
      split
      · rename_i hh
        simp only [decide_eq_true_eq] at hh
        have : (s.frame_idx : ℤ) = N := by push_cast at hh; omega
        constructor <;> simp <;> omega
      · rename_i hh
        simp only [decide_eq_true_eq, not_lt] at hh
        have hle : (((processFrame cfg { s with frame_idx := s.frame_idx + 1 } fr).frame_idx : ℕ) : ℤ) ≤ N := by
          rw [processFrame_frame_idx]
          simpa using hh
        have hrec := ih (processFrame cfg { s with frame_idx := s.frame_idx + 1 } fr) hle
          (fun o ho => hnone o (List.mem_cons_of_mem _ ho))
          (by rw [processFrame_frame_idx]; simp only [RunState.frame_idx]
              simp only [List.length_cons] at hlen; push_cast at hlen ⊢; omega)
        rw [processFrame_frame_idx] at hrec
        simp only [RunState.frame_idx] at hrec
        constructor <;> simp only [] <;> push_cast at hrec ⊢ <;> omega

/-- Claim C2 counterexample: with `max_frames = 1` and a two-frame
generator, `analyze_frames` pulls 2 frames — the second frame, beyond
the Nth, is pulled (and its index counted) before the cap check breaks
the loop, refuting "never pulls a frame beyond the Nth". -/
theorem max_frames_pull_cex :
    framesPulled cfg1 [some [], some []] = 2 ∧
    ¬ ((framesPulled cfg1 [some [], some []] : ℤ) ≤ 1) := by
  constructor
  · rfl
  · intro h
    rw [show framesPulled cfg1 [some [], some []] = 2 from rfl] at h
    omega

/-- Claim C2 (amended): with `max_frames = N ≥ 1`, processing halts
exactly after the Nth frame is processed — never more than `N` frames
are processed, exactly `N` when the generator has at least `N + 1`
non-`None` frames — but up to one frame beyond the Nth is pulled from
the generator before the loop breaks (exactly `N + 1` pulls in that
case). -/
theorem max_frames_bounds (cfg : Config) (N : ℤ) (hmax : cfg.max_frames = some N)
    (hN : 1 ≤ N) (frames : List (Option Frame)) :
    (framesProcessed cfg frames : ℤ) ≤ N ∧
    (framesPulled cfg frames : ℤ) ≤ N + 1 ∧
    ((∀ o ∈ frames, o ≠ none) → (frames.length : ℤ) ≥ N + 1 →
      (framesProcessed cfg frames : ℤ) = N ∧
      (framesPulled cfg frames : ℤ) = N + 1) := by
  have h0 : ((initState.frame_idx : ℕ) : ℤ) ≤ N := by
    simp only [initState]
    omega
  have hle := processLoop_counts_le cfg N hmax frames initState h0
  simp only [initState] at hle
  refine ⟨?_, ?_, ?_⟩
  · have := hle.1
    unfold framesProcessed
    simp only [initState] at this ⊢
    omega
  · have := hle.2
    unfold framesPulled
    simp only [initState] at this ⊢
    omega
  · intro hnone hlen
    have heq := processLoop_counts_eq cfg N hmax frames initState h0 hnone
      (by simp only [initState]; push_cast; omega)
    unfold framesProcessed framesPulled
    simp only [initState] at heq ⊢
    omega

/-- Claim C2 witness: `max_frames = 2` on a three-frame generator
processes exactly 2 frames and pulls exactly 3. -/
theorem max_frames_bounds_witness :
    cfg2.max_frames = some 2 ∧
    (framesProcessed cfg2 [some [], some [], some []] : ℤ) = 2 ∧
    (framesPulled cfg2 [some [], some [], some []] : ℤ) = 3 := by
  refine ⟨rfl, ?_⟩
  have h := (max_frames_bounds cfg2 2 rfl (by omega)
      [some [], some [], some []]).2.2 (by simp) (by simp)
  exact ⟨h.1, by rw [h.2]; norm_num⟩

end AccidentDetector
